import Mathlib

/-!
Verification of the device-state synchronization loop of `dbus-rngbridge.py`.

The embedding models the pieces of the script that the claims are about:

* `Json` — Python values as decoded by `response.json()`, distinguishing
  `int` and `float` the way Python does (list subscripts require an
  integral value, floats are rejected with `TypeError`).
* `PyError` — the exception classes that can be raised inside `_update`:
  `ValueError`, (requests/builtin) `ConnectionError`, `Timeout` are the
  ones listed in the first `except` clause of `_update` (recoverable);
  `KeyError`, `TypeError`, `IndexError` fall through to the generic
  `except Exception` clause (unhandled).
* `requestData` — `_requestData` (lines 122-131): raise `ConnectionError`
  on a falsy response, `ValueError` when the body is not JSON or when the
  decoded JSON is falsy.
* `runTry` / `runFault` / `update` — `_update` (lines 148-231): the try
  block performs nine sequential dbus writes, increments `/UpdateIndex`
  modulo 256 and records `time.time()`; the recoverable handler writes
  zero/off defaults and still increments the index; the generic handler
  only logs.  A write already performed is not rolled back when a later
  expression raises.  `_update` always returns `True`.

The dbus service is modelled as a record with one field per published
path (`/Pv/V`, `/Yield/Power`, `/State`, `/Yield/System`, `/Yield/User`,
`/Dc/0/Voltage`, `/Dc/0/Current`, `/Load/State`, `/Load/I`,
`/UpdateIndex`); all of them are externally writable, so theorems
quantify over arbitrary prior contents.
-/

namespace RngBridge

/-- Python values produced by `response.json()` (and stored on the bus). -/
inductive Json where
  | null : Json
  | bool : Bool → Json
  | int : ℤ → Json
  | float : ℚ → Json
  | str : String → Json
  | arr : List Json → Json
  | obj : List (String × Json) → Json

/-- Python truthiness, used by the `if not response` / `if not json`
checks in `_requestData`. -/
def Json.truthy : Json → Bool
  | .null => false
  | .bool b => b
  | .int n => n != 0
  | .float q => q != 0
  | .str s => s != ""
  | .arr xs => !xs.isEmpty
  | .obj fs => !fs.isEmpty

/-- The exception classes reachable inside `_update`. -/
inductive PyError where
  | valueError : PyError
  | connectionError : PyError
  | timeout : PyError
  | keyError : PyError
  | typeError : PyError
  | indexError : PyError
deriving DecidableEq

/-- Whether the exception is caught by the first `except` clause of
`_update` (lines 205-210): `ValueError`, `requests.exceptions.ConnectionError`,
`requests.exceptions.Timeout`, `ConnectionError`.  Everything else reaches
the generic `except Exception` clause. -/
def PyError.recoverable : PyError → Bool
  | .valueError => true
  | .connectionError => true
  | .timeout => true
  | .keyError => false
  | .typeError => false
  | .indexError => false

/-- Outcome of the `requests.get` call in `_requestData`: the request can
raise a connection error or a timeout, or deliver a response that is
truthy or falsy (`ok`) with a body that parses as JSON or not. -/
inductive HttpOutcome where
  | connError : HttpOutcome
  | timeout : HttpOutcome
  | response : Bool → Option Json → HttpOutcome

/-- `_requestData` (lines 122-131): check the response for truthiness
(raising `ConnectionError`), decode JSON (`response.json()` raises
`ValueError` on a non-JSON body), and reject a falsy decoded value with
`ValueError`. -/
def requestData : HttpOutcome → Except PyError Json
  | .connError => .error .connectionError
  | .timeout => .error .timeout
  | .response ok body =>
    if !ok then .error .connectionError
    else
      match body with
      | none => .error .valueError
      | some j => if j.truthy then .ok j else .error .valueError

/-- First binding of a key in a Python dict (JSON objects have unique
keys, so first-match lookup is exact). -/
def lookupField : List (String × Json) → String → Option Json
  | [], _ => none
  | (k, v) :: rest, key => if k = key then some v else lookupField rest key

/-- Python subscript `x[key]` with a string key: `KeyError` when the key
is missing from a dict, `TypeError` when `x` is not a dict. -/
def Json.getItem : Json → String → Except PyError Json
  | .obj fs, key =>
    match lookupField fs key with
    | some v => .ok v
    | none => .error .keyError
  | _, _ => .error .typeError

/-- `state[k1][k2]`, as the try block of `_update` accesses every field. -/
def getField (st : Json) (k1 k2 : String) : Except PyError Json :=
  match st.getItem k1 with
  | .error e => .error e
  | .ok sub => sub.getItem k2

/-- Values Python accepts as numbers for `*` and `/` (bool counts as 0/1). -/
def toNum : Json → Option ℚ
  | .int n => some (n : ℚ)
  | .float q => some q
  | .bool b => some (if b then 1 else 0)
  | _ => none

/-- Values Python accepts as a sequence index (`__index__`): ints and
bools, but not floats. -/
def pyIndexOf : Json → Option ℤ
  | .int n => some n
  | .bool b => some (if b then 1 else 0)
  | _ => none

/-- Python `s * n` string repetition (negative counts give `""`). -/
def strRepeat (s : String) : ℕ → String
  | 0 => ""
  | n + 1 => s ++ strRepeat s n

/-- Python `xs * n` list repetition. -/
def listRepeat (xs : List Json) : ℕ → List Json
  | 0 => []
  | n + 1 => xs ++ listRepeat xs n

/-- Python `a * b` for the values that can appear in a decoded JSON
document: numeric multiplication (int*int stays int, anything involving
a float is a float), sequence repetition for str/list with an integral
count, `TypeError` otherwise. -/
def pyMul (a b : Json) : Except PyError Json :=
  match a, b with
  | .float x, .float y => .ok (.float (x * y))
  | .float x, .int y => .ok (.float (x * y))
  | .float x, .bool y => .ok (.float (x * (if y then 1 else 0)))
  | .int x, .float y => .ok (.float ((x : ℚ) * y))
  | .bool x, .float y => .ok (.float ((if x then (1 : ℚ) else 0) * y))
  | .int x, .int y => .ok (.int (x * y))
  | .int x, .bool y => .ok (.int (x * (if y then 1 else 0)))
  | .bool x, .int y => .ok (.int ((if x then 1 else 0) * y))
  | .bool x, .bool y => .ok (.int ((if x then 1 else 0) * (if y then 1 else 0)))
  | .str s, other =>
    match pyIndexOf other with
    | some n => .ok (.str (strRepeat s n.toNat))
    | none => .error .typeError
  | other, .str s =>
    match pyIndexOf other with
    | some n => .ok (.str (strRepeat s n.toNat))
    | none => .error .typeError
  | .arr xs, other =>
    match pyIndexOf other with
    | some n => .ok (.arr (listRepeat xs n.toNat))
    | none => .error .typeError
  | other, .arr xs =>
    match pyIndexOf other with
    | some n => .ok (.arr (listRepeat xs n.toNat))
    | none => .error .typeError
  | _, _ => .error .typeError

/-- Python `a * b` where each operand may itself have raised (left
operand is evaluated first, as in `state["p"]["vo"] * state["p"]["cu"]`). -/
def pyMulE (x y : Except PyError Json) : Except PyError Json :=
  match x with
  | .error e => .error e
  | .ok a =>
    match y with
    | .error e => .error e
    | .ok b => pyMul a b

/-- Python `a / d` for a nonzero float literal `d` (the script only ever
divides by `1000.0`): the result is a float, non-numeric `a` raises
`TypeError`. -/
def pyDivByFloat (a : Json) (d : ℚ) : Except PyError Json :=
  match toNum a with
  | some x => .ok (.float (x / d))
  | none => .error .typeError

/-- `a / d` where `a` may itself have raised. -/
def pyDivE (x : Except PyError Json) (d : ℚ) : Except PyError Json :=
  match x with
  | .error e => .error e
  | .ok a => pyDivByFloat a d

/-- The literal charge-state mapping array of `_update` (line 154). -/
def state_map : List ℤ := [0, 0, 3, 7, 4, 5, 2]

/-- Python list subscript `l[i]`: nonnegative indices from the front,
negative indices from the back (`l[-1]` is the last element), and
`IndexError` outside `-len l .. len l - 1`. -/
def pyListGet (l : List ℤ) (i : ℤ) : Except PyError ℤ :=
  if 0 ≤ i then
    match l.get? i.toNat with
    | some v => .ok v
    | none => .error .indexError
  else
    if i + (l.length : ℤ) < 0 then .error .indexError
    else
      match l.get? (i + (l.length : ℤ)).toNat with
      | some v => .ok v
      | none => .error .indexError

/-- A subscript value must be integral (`TypeError` otherwise). -/
def toIndex (j : Json) : Except PyError ℤ :=
  match pyIndexOf j with
  | some n => .ok n
  | none => .error .typeError

/-- `state_map[state["c"]["st"]]` (line 171). -/
def stateMapEval (st : Json) : Except PyError ℤ :=
  match getField st "c" "st" with
  | .error e => .error e
  | .ok v =>
    match toIndex v with
    | .error e => .error e
    | .ok i => pyListGet state_map i

/-- Python `x % m` for floats: `x - m * floor (x / m)`. -/
def pyFloatMod (a m : ℚ) : ℚ := a - m * (⌊a / m⌋ : ℤ)

/-- `(self._dbusservice["/UpdateIndex"] + 1) % 256` (lines 199-201 and
226-228), for whatever value is currently stored at `/UpdateIndex`. -/
def pyIncMod256 : Json → Except PyError Json
  | .int n => .ok (.int ((n + 1) % 256))
  | .bool b => .ok (.int (((if b then 1 else 0) + 1) % 256))
  | .float q => .ok (.float (pyFloatMod (q + 1) 256))
  | _ => .error .typeError

/-- The published dbus paths written by `_update`, one field per path:
`/Pv/V`, `/Yield/Power`, `/State`, `/Yield/System`, `/Yield/User`,
`/Dc/0/Voltage`, `/Dc/0/Current`, `/Load/State`, `/Load/I`,
`/UpdateIndex`. -/
structure Dbus where
  pvV : Json
  yieldPower : Json
  state : Json
  yieldSystem : Json
  yieldUser : Json
  dc0Voltage : Json
  dc0Current : Json
  loadState : Json
  loadI : Json
  updateIndex : Json

/-- The mutable state of `DbusRngbridgeService` that `_update` touches:
the dbus properties and `self._lastUpdate`. -/
structure ServiceState where
  dbus : Dbus
  lastUpdate : ℚ

/-- The nine assignments of the try block of `_update` (lines 168-182),
in source order: the expression whose evaluation may raise, and the
dbus field it is written to. -/
def writes (st : Json) : List (Except PyError Json × (Dbus → Json → Dbus)) :=
  [ (getField st "p" "vo", fun d v => { d with pvV := v }),
    (pyMulE (getField st "p" "vo") (getField st "p" "cu"),
      fun d v => { d with yieldPower := v }),
    ((stateMapEval st).map Json.int, fun d v => { d with state := v }),
    (pyDivE (getField st "b" "to") 1000, fun d v => { d with yieldSystem := v }),
    (pyDivE (getField st "b" "ge") 1000, fun d v => { d with yieldUser := v }),
    (getField st "b" "vo", fun d v => { d with dc0Voltage := v }),
    (getField st "b" "cu", fun d v => { d with dc0Current := v }),
    (getField st "o" "l", fun d v => { d with loadState := v }),
    (getField st "l" "cu", fun d v => { d with loadI := v }) ]

/-- Run a list of assignments in order; the first raised exception aborts
the rest, keeping every write already performed (Python does not roll
back). -/
def applyWrites :
    List (Except PyError Json × (Dbus → Json → Dbus)) → ServiceState →
      ServiceState × Option PyError
  | [], s => (s, none)
  | (x, wr) :: rest, s =>
    match x with
    | .error e => (s, some e)
    | .ok v => applyWrites rest { s with dbus := wr s.dbus v }

/-- The tail of the try block (lines 198-204): increment `/UpdateIndex`
modulo 256 and record `time.time()` (passed in as `now`). -/
def finishTry (now : ℚ) (s : ServiceState) : ServiceState × Option PyError :=
  match pyIncMod256 s.dbus.updateIndex with
  | .error e => (s, some e)
  | .ok v =>
    ({ s with dbus := { s.dbus with updateIndex := v }, lastUpdate := now }, none)

/-- The whole try block of `_update` applied to an already decoded JSON
value: nine writes, then index increment and timestamp. -/
def runTry (st : Json) (now : ℚ) (s : ServiceState) : ServiceState × Option PyError :=
  match applyWrites (writes st) s with
  | (s2, some e) => (s2, some e)
  | (s2, none) => finishTry now s2

/-- The zero/off defaults written by the recoverable handler
(lines 216-224), around whatever index value is stored. -/
def faultDbus (idx : Json) : Dbus :=
  { pvV := .int 0, yieldPower := .int 0, yieldSystem := .int 0,
    yieldUser := .int 0, state := .int 0, dc0Voltage := .int 0,
    dc0Current := .int 0, loadState := .bool false, loadI := .int 0,
    updateIndex := idx }

/-- The recoverable handler of `_update` (lines 216-228): write the nine
defaults, then increment `/UpdateIndex` modulo 256.  `self._lastUpdate`
is not touched. -/
def runFault (s : ServiceState) : ServiceState × Option PyError :=
  let d := faultDbus s.dbus.updateIndex
  match pyIncMod256 d.updateIndex with
  | .error e => ({ s with dbus := d }, some e)
  | .ok v => ({ s with dbus := { d with updateIndex := v } }, none)

/-- `_update` (lines 148-231) for one cycle whose fetch resolved to
`fetch`, at wall-clock time `now`: run the try block; a recoverable
exception runs the fault handler, any other exception is only logged.
The function returns `True` in every handled case; an exception raised
inside the recoverable handler itself would propagate out of `_update`
(modelled as `.error`). -/
def update (fetch : HttpOutcome) (now : ℚ) (s : ServiceState) :
    Except PyError (ServiceState × Bool) :=
  match requestData fetch with
  | .error e =>
    if e.recoverable then
      match runFault s with
      | (s2, none) => .ok (s2, true)
      | (_, some e2) => .error e2
    else .ok (s, true)
  | .ok j =>
    match runTry j now s with
    | (s2, none) => .ok (s2, true)
    | (s2, some e) =>
      if e.recoverable then
        match runFault s2 with
        | (s3, none) => .ok (s3, true)
        | (_, some e2) => .error e2
      else .ok (s2, true)

/-- How the cycle was classified: `none` for a fully successful try
block, `some e` for the exception `e` raised inside it (recoverable or
not). -/
def cycleClass (fetch : HttpOutcome) (now : ℚ) (s : ServiceState) : Option PyError :=
  match requestData fetch with
  | .error e => some e
  | .ok j => (runTry j now s).2

/-- Consecutive `_update` cycles (the value returned to the GLib timer is
ignored by the scheduler as long as it is truthy). -/
def runCycles (fetches : List HttpOutcome) (now : ℚ) (s : ServiceState) :
    Except PyError ServiceState :=
  match fetches with
  | [] => .ok s
  | f :: rest =>
    match update f now s with
    | .error e => .error e
    | .ok (s2, _) => runCycles rest now s2

/-- A well-formed device snapshot: the fields `_update` consumes, with
the types the device sends (voltages/currents as floats, energy counters
and the charge-state code as ints, the load flag as a bool). -/
structure Snapshot where
  pvo : ℚ
  pcu : ℚ
  cst : ℤ
  bto : ℤ
  bge : ℤ
  bvo : ℚ
  bcu : ℚ
  ol : Bool
  lcu : ℚ

/-- The JSON document carrying a snapshot, shaped like the device's
`/api/state` response. -/
def Snapshot.toJson (sn : Snapshot) : Json :=
  .obj [("p", .obj [("vo", .float sn.pvo), ("cu", .float sn.pcu)]),
        ("c", .obj [("st", .int sn.cst)]),
        ("b", .obj [("to", .int sn.bto), ("ge", .int sn.bge),
                    ("vo", .float sn.bvo), ("cu", .float sn.bcu)]),
        ("o", .obj [("l", .bool sn.ol)]),
        ("l", .obj [("cu", .float sn.lcu)])]

/-- The dbus contents a successful cycle over snapshot `sn` produces,
starting from stored index `idx`. -/
def successDbus (sn : Snapshot) (idx : ℤ) : Dbus :=
  { pvV := .float sn.pvo,
    yieldPower := .float (sn.pvo * sn.pcu),
    state := .int (state_map.getD sn.cst.toNat 0),
    yieldSystem := .float ((sn.bto : ℚ) / 1000),
    yieldUser := .float ((sn.bge : ℚ) / 1000),
    dc0Voltage := .float sn.bvo,
    dc0Current := .float sn.bcu,
    loadState := .bool sn.ol,
    loadI := .float sn.lcu,
    updateIndex := .int ((idx + 1) % 256) }

/-- A snapshot-shaped JSON document whose `p.vo` is a string and whose
`p.cu` is an int (a wrong-typed leaf): Python evaluates
`state["p"]["vo"] * state["p"]["cu"]` on it as string repetition, so no
exception is raised anywhere in the try block. -/
def Snapshot.toJsonStrVo (sn : Snapshot) (vs : String) (ncu : ℤ) : Json :=
  .obj [("p", .obj [("vo", .str vs), ("cu", .int ncu)]),
        ("c", .obj [("st", .int sn.cst)]),
        ("b", .obj [("to", .int sn.bto), ("ge", .int sn.bge),
                    ("vo", .float sn.bvo), ("cu", .float sn.bcu)]),
        ("o", .obj [("l", .bool sn.ol)]),
        ("l", .obj [("cu", .float sn.lcu)])]

/-- The dbus contents the cycle over `Snapshot.toJsonStrVo` produces:
`/Pv/V` holds the string and `/Yield/Power` its `ncu`-fold repetition. -/
def strVoDbus (sn : Snapshot) (vs : String) (ncu : ℤ) (idx : ℤ) : Dbus :=
  { pvV := .str vs,
    yieldPower := .str (strRepeat vs ncu.toNat),
    state := .int (state_map.getD sn.cst.toNat 0),
    yieldSystem := .float ((sn.bto : ℚ) / 1000),
    yieldUser := .float ((sn.bge : ℚ) / 1000),
    dc0Voltage := .float sn.bvo,
    dc0Current := .float sn.bcu,
    loadState := .bool sn.ol,
    loadI := .float sn.lcu,
    updateIndex := .int ((idx + 1) % 256) }

/-- The nine published electrical properties hold their documented
zero/off defaults (the index is not part of this predicate). -/
def nineDefaults (d : Dbus) : Prop :=
  d.pvV = .int 0 ∧ d.yieldPower = .int 0 ∧ d.yieldSystem = .int 0 ∧
  d.yieldUser = .int 0 ∧ d.state = .int 0 ∧ d.dc0Voltage = .int 0 ∧
  d.dc0Current = .int 0 ∧ d.loadState = .bool false ∧ d.loadI = .int 0

/-- Observation of a finished cycle: the stored `/State`. -/
def publishedState : Except PyError (ServiceState × Bool) → Option Json
  | .ok (s, _) => some s.dbus.state
  | .error _ => none

/-- Observation of a finished cycle: the stored `/UpdateIndex`. -/
def publishedIndex : Except PyError (ServiceState × Bool) → Option Json
  | .ok (s, _) => some s.dbus.updateIndex
  | .error _ => none

/-- Observation of a finished cycle: `self._lastUpdate`. -/
def lastUpdateOf : Except PyError (ServiceState × Bool) → Option ℚ
  | .ok (s, _) => some s.lastUpdate
  | .error _ => none

/-- Observation of a finished cycle: the value `_update` returned. -/
def returnValue : Except PyError (ServiceState × Bool) → Option Bool
  | .ok (_, b) => some b
  | .error _ => none

/-- Observation of a finished cycle: the stored `/Pv/V`. -/
def publishedPvV : Except PyError (ServiceState × Bool) → Option Json
  | .ok (s, _) => some s.dbus.pvV
  | .error _ => none

/-- `_getSignOfLifeInterval` (lines 100-107).  The config value is a
string; the empty string (modelled `none`) is falsy and replaced by `0`,
otherwise `int(value)` yields the written integer (modelled `some n`). -/
def getSignOfLifeInterval : Option ℤ → ℤ
  | none => 0
  | some n => n

/-- The period handed to `gobject.timeout_add` for `_signOfLife`
(line 93): minutes times `60 * 1000`. -/
def signOfLifePeriodMs (v : Option ℤ) : ℤ := getSignOfLifeInterval v * 60 * 1000

/-- The two `gobject.timeout_add` registrations performed by `__init__`
(lines 90 and 93), as the list of their periods in milliseconds: the
`_update` timer at 2000 ms and then the `_signOfLife` timer.  Both calls
are unconditional. -/
def initTimerPeriods (v : Option ℤ) : List ℤ := [2000, signOfLifePeriodMs v]

/-- Python `round(x, ndigits)` on exact values: round half to even at the
given decimal. -/
def roundHalfEven (q : ℚ) : ℤ :=
  if q - ⌊q⌋ < 1 / 2 then ⌊q⌋
  else if 1 / 2 < q - ⌊q⌋ then ⌊q⌋ + 1
  else if ⌊q⌋ % 2 = 0 then ⌊q⌋ else ⌊q⌋ + 1

/-- `round(v, nd)` as used by the text formatters in `main`. -/
def pyRound (v : ℚ) (nd : ℕ) : ℚ :=
  (roundHalfEven (v * 10 ^ nd) : ℚ) / 10 ^ nd

/-- The `_kwh` formatter of `main` (lines 274-275). -/
def fmtKwh (v : ℚ) : String := toString (pyRound v 2) ++ " KWh"

/-- The `_a` formatter of `main` (lines 277-278). -/
def fmtA (v : ℚ) : String := toString (pyRound v 1) ++ " A"

/-- The `_w` formatter of `main` (lines 280-281). -/
def fmtW (v : ℚ) : String := toString (pyRound v 1) ++ " W"

/-- The `_v` formatter of `main` (lines 283-284). -/
def fmtV (v : ℚ) : String := toString (pyRound v 1) ++ " V"

/-- The bus `GetText` of a stored value: a pure rendering through the
registered formatter, leaving the stored value untouched. -/
def renderText (fmt : ℚ → String) : Json → Option String
  | .float q => some (fmt q)
  | .int n => some (fmt (n : ℚ))
  | _ => none

/-- A sample prior dbus content with every published property already
holding a non-default value (`/Pv/V` holds the externally written `99`
of Scenario D). -/
def sampleDbus (idx : ℤ) : Dbus :=
  { pvV := .int 99, yieldPower := .int 1, yieldSystem := .int 1,
    yieldUser := .int 1, state := .int 1, dc0Voltage := .int 1,
    dc0Current := .int 1, loadState := .bool true, loadI := .int 1,
    updateIndex := .int idx }

/-- A sample prior service state at last-success time 77. -/
def sampleState (idx : ℤ) : ServiceState :=
  { dbus := sampleDbus idx, lastUpdate := 77 }

/-! ## Helper lemmas -/

lemma writes_preserve (st : Json) :
    ∀ p ∈ writes st, ∀ d v, ((p.2) d v).updateIndex = d.updateIndex := by
  intro p hp
  simp only [writes, List.mem_cons, List.not_mem_nil, or_false] at hp
  rcases hp with h | h | h | h | h | h | h | h | h <;> subst h <;>
    intro d v <;> rfl

lemma applyWrites_inv (L : List (Except PyError Json × (Dbus → Json → Dbus)))
    (hL : ∀ p ∈ L, ∀ d v, ((p.2) d v).updateIndex = d.updateIndex)
    (s : ServiceState) :
    (applyWrites L s).1.dbus.updateIndex = s.dbus.updateIndex ∧
    (applyWrites L s).1.lastUpdate = s.lastUpdate := by
  induction L generalizing s with
  | nil => exact ⟨rfl, rfl⟩
  | cons p rest ih =>
    obtain ⟨x, wr⟩ := p
    cases x with
    | error e => exact ⟨rfl, rfl⟩
    | ok v =>
      have hhead : (wr s.dbus v).updateIndex = s.dbus.updateIndex :=
        hL (.ok v, wr) (List.mem_cons_self _ _) s.dbus v
      have hrest : ∀ p ∈ rest, ∀ d v, ((p.2) d v).updateIndex = d.updateIndex :=
        fun p hp => hL p (List.mem_cons_of_mem _ hp)
      have hind := ih hrest { s with dbus := wr s.dbus v }
      simpa [applyWrites, hhead] using hind

lemma runTry_of_fail (j : Json) (now : ℚ) (s s2 : ServiceState) (e : PyError)
    (hA : applyWrites (writes j) s = (s2, some e)) :
    runTry j now s = (s2, some e) := by
  unfold runTry
  rw [hA]

lemma runTry_of_ok (j : Json) (now : ℚ) (s s2 : ServiceState)
    (hA : applyWrites (writes j) s = (s2, none)) :
    runTry j now s = finishTry now s2 := by
  unfold runTry
  rw [hA]

lemma runTry_fail (j : Json) (now : ℚ) (s sF : ServiceState) (e : PyError)
    (h : runTry j now s = (sF, some e)) :
    sF.dbus.updateIndex = s.dbus.updateIndex ∧ sF.lastUpdate = s.lastUpdate := by
  have hinv := applyWrites_inv (writes j) (writes_preserve j) s
  cases hA : applyWrites (writes j) s with
  | mk s2 oe =>
    rw [hA] at hinv
    cases oe with
    | some e2 =>
      rw [runTry_of_fail j now s s2 e2 hA] at h
      simp only [Prod.mk.injEq] at h
      obtain ⟨h1, -⟩ := h
      subst h1
      exact hinv
    | none =>
      rw [runTry_of_ok j now s s2 hA] at h
      unfold finishTry at h
      cases hI : pyIncMod256 s2.dbus.updateIndex with
      | error e3 =>
        rw [hI] at h
        simp only [Prod.mk.injEq] at h
        obtain ⟨h1, -⟩ := h
        subst h1
        exact hinv
      | ok v =>
        rw [hI] at h
        simp at h

lemma runTry_ok (j : Json) (now : ℚ) (s sF : ServiceState)
    (h : runTry j now s = (sF, none)) :
    sF.lastUpdate = now ∧
      ∃ v, pyIncMod256 s.dbus.updateIndex = .ok v ∧ sF.dbus.updateIndex = v := by
  have hinv := applyWrites_inv (writes j) (writes_preserve j) s
  cases hA : applyWrites (writes j) s with
  | mk s2 oe =>
    rw [hA] at hinv
    cases oe with
    | some e2 =>
      rw [runTry_of_fail j now s s2 e2 hA] at h
      simp at h
    | none =>
      rw [runTry_of_ok j now s s2 hA] at h
      unfold finishTry at h
      cases hI : pyIncMod256 s2.dbus.updateIndex with
      | error e3 =>
        rw [hI] at h
        simp at h
      | ok v =>
        rw [hI] at h
        simp only [Prod.mk.injEq] at h
        obtain ⟨h1, -⟩ := h
        subst h1
        refine ⟨rfl, v, ?_, rfl⟩
        rw [← hinv.1]
        exact hI

lemma requestData_recoverable (f : HttpOutcome) (e : PyError)
    (h : requestData f = .error e) : e.recoverable = true := by
  cases f with
  | connError =>
    simp only [requestData, Except.error.injEq] at h
    subst h; rfl
  | timeout =>
    simp only [requestData, Except.error.injEq] at h
    subst h; rfl
  | response ok body =>
    cases ok with
    | false =>
      simp [requestData] at h
      subst h; rfl
    | true =>
      cases body with
      | none =>
        simp [requestData] at h
        subst h; rfl
      | some j =>
        by_cases ht : j.truthy
        · simp [requestData, ht] at h
        · simp [requestData, ht] at h
          subst h; rfl

lemma requestData_falsy (j : Json) (h : j.truthy = false) :
    requestData (.response true (some j)) = .error .valueError := by
  simp [requestData, h]

lemma pyListGet_mem (c : ℤ) (h0 : 0 ≤ c) (h7 : c < 7) :
    pyListGet state_map c = .ok (state_map.getD c.toNat 0) := by
  interval_cases c <;> rfl

lemma pyListGet_big (c : ℤ) (h : 7 ≤ c) :
    pyListGet state_map c = .error .indexError := by
  unfold pyListGet
  rw [if_pos (by omega)]
  have hn : state_map.get? c.toNat = none := by
    apply List.get?_eq_none.mpr
    simp only [state_map, List.length_cons, List.length_nil]
    omega
  rw [hn]

lemma pyListGet_small (c : ℤ) (h : c < -7) :
    pyListGet state_map c = .error .indexError := by
  unfold pyListGet
  rw [if_neg (by omega)]
  rw [if_pos (by simp only [state_map, List.length_cons, List.length_nil]; omega)]

lemma pyListGet_neg (d : ℤ) (h1 : -7 ≤ d) (h2 : d < 0) :
    pyListGet state_map d = .ok (state_map.getD (7 + d).toNat 0) := by
  interval_cases d <;> rfl

lemma toJson_truthy (sn : Snapshot) : sn.toJson.truthy = true := rfl

lemma runTry_snapshot (sn : Snapshot) (now : ℚ) (s : ServiceState) (i : ℤ)
    (hidx : s.dbus.updateIndex = .int i) (h0 : 0 ≤ sn.cst) (h7 : sn.cst < 7) :
    runTry sn.toJson now s =
      ({ dbus := successDbus sn i, lastUpdate := now }, none) := by
  have hmap := pyListGet_mem sn.cst h0 h7
  simp [runTry, writes, applyWrites, finishTry, Snapshot.toJson, getField,
    Json.getItem, lookupField, pyMulE, pyMul, stateMapEval, toIndex,
    pyIndexOf, pyDivE, pyDivByFloat, toNum, pyIncMod256, Except.map, hmap,
    hidx, successDbus]

lemma update_recoverable (fetch : HttpOutcome) (e : PyError) (now : ℚ)
    (s : ServiceState) (i : ℤ)
    (hreq : requestData fetch = .error e) (hrec : e.recoverable = true)
    (hidx : s.dbus.updateIndex = .int i) :
    update fetch now s =
      .ok ({ dbus := faultDbus (.int ((i + 1) % 256)),
             lastUpdate := s.lastUpdate }, true) := by
  simp [update, hreq, hrec, runFault, faultDbus, pyIncMod256, hidx]

lemma toJsonStrVo_truthy (sn : Snapshot) (vs : String) (ncu : ℤ) :
    (sn.toJsonStrVo vs ncu).truthy = true := rfl

lemma runTry_strVo (sn : Snapshot) (vs : String) (ncu : ℤ) (now : ℚ)
    (s : ServiceState) (i : ℤ) (hidx : s.dbus.updateIndex = .int i)
    (h0 : 0 ≤ sn.cst) (h7 : sn.cst < 7) :
    runTry (sn.toJsonStrVo vs ncu) now s =
      ({ dbus := strVoDbus sn vs ncu i, lastUpdate := now }, none) := by
  have hmap := pyListGet_mem sn.cst h0 h7
  simp [runTry, writes, applyWrites, finishTry, Snapshot.toJsonStrVo, getField,
    Json.getItem, lookupField, pyMulE, pyMul, stateMapEval, toIndex,
    pyIndexOf, pyDivE, pyDivByFloat, toNum, pyIncMod256, Except.map, hmap,
    hidx, strVoDbus]

lemma update_unhandled (fetch : HttpOutcome) (now : ℚ) (s : ServiceState)
    (e : PyError) (hclass : cycleClass fetch now s = some e)
    (hrec : e.recoverable = false) :
    ∃ s2, update fetch now s = .ok (s2, true) ∧
      s2.dbus.updateIndex = s.dbus.updateIndex ∧
      s2.lastUpdate = s.lastUpdate := by
  cases hreq : requestData fetch with
  | error eR =>
    have hR := requestData_recoverable fetch eR hreq
    simp only [cycleClass, hreq, Option.some.injEq] at hclass
    subst hclass
    rw [hR] at hrec
    cases hrec
  | ok j =>
    simp only [cycleClass, hreq] at hclass
    cases hrt : runTry j now s with
    | mk s2 oe =>
      rw [hrt] at hclass
      simp only at hclass
      subst hclass
      have hfi := runTry_fail j now s s2 e hrt
      refine ⟨s2, ?_, hfi.1, hfi.2⟩
      simp [update, hreq, hrt, hrec]

lemma runCycles_faults (fetches : List HttpOutcome) (now : ℚ)
    (s : ServiceState) (i : ℤ)
    (hidx : s.dbus.updateIndex = .int i) (hne : fetches ≠ [])
    (hall : ∀ f ∈ fetches, ∃ eF, requestData f = .error eF ∧
      eF.recoverable = true) :
    ∃ sN, runCycles fetches now s = .ok sN ∧ nineDefaults sN.dbus ∧
      sN.lastUpdate = s.lastUpdate := by
  induction fetches generalizing s i with
  | nil => exact absurd rfl hne
  | cons f rest ih =>
    obtain ⟨eF, hreq, hrec⟩ := hall f (List.mem_cons_self _ _)
    have h1 := update_recoverable f eF now s i hreq hrec hidx
    cases rest with
    | nil =>
      refine ⟨{ dbus := faultDbus (.int ((i + 1) % 256)),
                lastUpdate := s.lastUpdate }, ?_, ?_, rfl⟩
      · simp [runCycles, h1]
      · simp [nineDefaults, faultDbus]
    | cons f2 rest2 =>
      obtain ⟨sN, hN, hd, hl⟩ :=
        ih ⟨faultDbus (.int ((i + 1) % 256)), s.lastUpdate⟩ ((i + 1) % 256) rfl
          (by simp) (fun g hg => hall g (List.mem_cons_of_mem _ hg))
      refine ⟨sN, ?_, hd, hl⟩
      simp only [runCycles, h1]
      exact hN

/-! ## Claims -/

/-- C1: on a successful cycle (well-formed, truthy JSON snapshot, with a
charge-state code in range), `_update` writes all nine published
properties to the device-derived values regardless of their prior
contents (so an externally written `/Pv/V = 99` is overwritten),
increments `/UpdateIndex` modulo 256, and records the wall-clock time of
the success. -/
theorem c1_success_overwrites_all (sn : Snapshot) (now : ℚ) (s : ServiceState)
    (i : ℤ) (hidx : s.dbus.updateIndex = .int i) (h0 : 0 ≤ sn.cst)
    (h7 : sn.cst < 7) :
    update (.response true (some sn.toJson)) now s =
      .ok ({ dbus := successDbus sn i, lastUpdate := now }, true) := by
  have hrt := runTry_snapshot sn now s i hidx h0 h7
  simp [update, requestData, toJson_truthy, hrt]

/-- Scenario A of the spec: the snapshot
`{"p":{"vo":40.0,"cu":5.0},"c":{"st":3},"b":{"to":123000,"ge":4500,"vo":26.0,"cu":4.8},"o":{"l":true},"l":{"cu":1.2}}`. -/
def scenarioA : Snapshot := ⟨40, 5, 3, 123000, 4500, 26, 24 / 5, true, 6 / 5⟩

/-- Witness for C1: Scenario A applied to a prior state whose `/Pv/V`
holds the externally written `99` and whose index is 7. -/
theorem c1_success_overwrites_all_witness :
    (sampleState 7).dbus.updateIndex = .int 7 ∧ 0 ≤ scenarioA.cst ∧
      scenarioA.cst < 7 ∧
      update (.response true (some scenarioA.toJson)) 42 (sampleState 7) =
        .ok ({ dbus := successDbus scenarioA 7, lastUpdate := 42 }, true) :=
  ⟨rfl, by decide, by decide,
   c1_success_overwrites_all scenarioA 42 (sampleState 7) 7 rfl (by decide)
     (by decide)⟩

/-- C2: for every device charge-state code `d` in `0..6`, a successful
cycle publishes `/State` equal to the literal array `[0,0,3,7,4,5,2]`
indexed by `d`. -/
theorem c2_state_table (d : ℤ) (sn : Snapshot) (now : ℚ) (s : ServiceState)
    (i : ℤ) (hidx : s.dbus.updateIndex = .int i) (hd : sn.cst = d)
    (h0 : 0 ≤ d) (h7 : d < 7) :
    publishedState (update (.response true (some sn.toJson)) now s) =
      some (.int (([0, 0, 3, 7, 4, 5, 2] : List ℤ).getD d.toNat 0)) := by
  subst hd
  have hrt := runTry_snapshot sn now s i hidx h0 h7
  simp [publishedState, update, requestData, toJson_truthy, hrt, successDbus,
    state_map]

/-- A snapshot whose charge-state code is 2 (device `fault`). -/
def scenarioC2 : Snapshot := ⟨10, 3, 2, 1000, 2000, 12, 1, false, 1⟩

/-- Witness for C2: device code 2 publishes state 3. -/
theorem c2_state_table_witness :
    (sampleState 0).dbus.updateIndex = .int 0 ∧ scenarioC2.cst = 2 ∧
      (0 : ℤ) ≤ 2 ∧ (2 : ℤ) < 7 ∧
      publishedState
          (update (.response true (some scenarioC2.toJson)) 1 (sampleState 0)) =
        some (.int (([0, 0, 3, 7, 4, 5, 2] : List ℤ).getD (2 : ℤ).toNat 0)) :=
  ⟨rfl, rfl, by decide, by decide,
   c2_state_table 2 scenarioC2 1 (sampleState 0) 0 rfl rfl (by decide)
     (by decide)⟩

/-- C3: starting from stored index `i`, a completed cycle (success or
recoverable fault) leaves `/UpdateIndex` at `(i + 1) % 256`, which lies
in `0..255`; an unhandled fault leaves it unchanged.  `_update` returns
`True` in every case. -/
theorem c3_update_index (fetch : HttpOutcome) (now : ℚ) (s : ServiceState)
    (i : ℤ) (hidx : s.dbus.updateIndex = .int i) :
    ∃ s2, update fetch now s = .ok (s2, true) ∧
      ((∀ e, cycleClass fetch now s = some e → e.recoverable = true) →
        s2.dbus.updateIndex = .int ((i + 1) % 256) ∧
        0 ≤ (i + 1) % 256 ∧ (i + 1) % 256 < 256) ∧
      (∀ e, cycleClass fetch now s = some e → e.recoverable = false →
        s2.dbus.updateIndex = s.dbus.updateIndex) := by
  have hbounds : 0 ≤ (i + 1) % 256 ∧ (i + 1) % 256 < 256 :=
    ⟨Int.emod_nonneg _ (by norm_num), Int.emod_lt_of_pos _ (by norm_num)⟩
  cases hreq : requestData fetch with
  | error e =>
    have hrec := requestData_recoverable fetch e hreq
    have hup := update_recoverable fetch e now s i hreq hrec hidx
    refine ⟨_, hup, fun _ => ⟨rfl, hbounds⟩, ?_⟩
    intro e2 hc hf
    simp only [cycleClass, hreq, Option.some.injEq] at hc
    subst hc
    simp [hrec] at hf
  | ok j =>
    cases hrt : runTry j now s with
    | mk s2 oe =>
      cases oe with
      | none =>
        obtain ⟨hlu, v, hv, hidxF⟩ := runTry_ok j now s s2 hrt
        rw [hidx] at hv
        simp only [pyIncMod256, Except.ok.injEq] at hv
        refine ⟨s2, ?_, fun _ => ⟨?_, hbounds⟩, ?_⟩
        · simp only [update, hreq, hrt]
        · rw [hidxF]
          exact hv.symm
        · intro e2 hc hf
          simp only [cycleClass, hreq, hrt] at hc
          simp at hc
      | some e =>
        have hfi := runTry_fail j now s s2 e hrt
        cases hr : e.recoverable with
        | true =>
          have hidx2 : s2.dbus.updateIndex = .int i := by rw [hfi.1, hidx]
          refine ⟨⟨faultDbus (.int ((i + 1) % 256)), s2.lastUpdate⟩, ?_,
            fun _ => ⟨rfl, hbounds⟩, ?_⟩
          · simp [update, hreq, hrt, hr, runFault, faultDbus, pyIncMod256,
              hidx2]
          · intro e2 hc hf
            simp only [cycleClass, hreq, hrt, Option.some.injEq] at hc
            subst hc
            simp [hr] at hf
        | false =>
          refine ⟨s2, ?_, ?_, ?_⟩
          · simp [update, hreq, hrt, hr]
          · intro hcomp
            have hq := hcomp e (by simp only [cycleClass, hreq, hrt])
            rw [hr] at hq
            cases hq
          · intro e2 hc hf
            exact hfi.1

/-- Witness for C3: a timed-out fetch from index 5; the cycle is
recoverable, so the index becomes `(5 + 1) % 256` and lies in `0..255`. -/
theorem c3_update_index_witness :
    (sampleState 5).dbus.updateIndex = .int 5 ∧
      ∃ s2, update .timeout 2 (sampleState 5) = .ok (s2, true) ∧
        ((∀ e, cycleClass .timeout 2 (sampleState 5) = some e →
            e.recoverable = true) →
          s2.dbus.updateIndex = .int ((5 + 1) % 256) ∧
          0 ≤ ((5 : ℤ) + 1) % 256 ∧ ((5 : ℤ) + 1) % 256 < 256) ∧
        (∀ e, cycleClass .timeout 2 (sampleState 5) = some e →
          e.recoverable = false →
          s2.dbus.updateIndex = (sampleState 5).dbus.updateIndex) :=
  ⟨rfl, c3_update_index .timeout 2 (sampleState 5) 5 rfl⟩

/-- C4: a recoverable fault (`ValueError`, connection error or timeout
raised during the fetch) sets the nine published properties to their
zero/off defaults regardless of prior values, increments `/UpdateIndex`
modulo 256, and leaves `_lastUpdate` untouched; after any run of one or
more consecutive recoverable faults the nine properties hold exactly
those defaults. -/
theorem c4_recoverable_defaults (fetch : HttpOutcome) (e : PyError) (now : ℚ)
    (s : ServiceState) (i : ℤ)
    (hreq : requestData fetch = .error e) (hrec : e.recoverable = true)
    (hidx : s.dbus.updateIndex = .int i) :
    update fetch now s =
      .ok ({ dbus := faultDbus (.int ((i + 1) % 256)),
             lastUpdate := s.lastUpdate }, true) ∧
    ∀ fetches : List HttpOutcome, fetches ≠ [] →
      (∀ f ∈ fetches, ∃ eF, requestData f = .error eF ∧
        eF.recoverable = true) →
      ∃ sN, runCycles fetches now s = .ok sN ∧ nineDefaults sN.dbus ∧
        sN.lastUpdate = s.lastUpdate :=
  ⟨update_recoverable fetch e now s i hreq hrec hidx,
   fun fetches hne hall => runCycles_faults fetches now s i hidx hne hall⟩

/-- Witness for C4: a timeout at index 255 wraps the index to 0 and zeros
the properties while keeping the last-success timestamp. -/
theorem c4_recoverable_defaults_witness :
    requestData .timeout = .error .timeout ∧
      PyError.timeout.recoverable = true ∧
      (sampleState 255).dbus.updateIndex = .int 255 ∧
      update .timeout 3 (sampleState 255) =
        .ok ({ dbus := faultDbus (.int ((255 + 1) % 256)),
               lastUpdate := (sampleState 255).lastUpdate }, true) :=
  ⟨rfl, rfl, rfl,
   (c4_recoverable_defaults .timeout .timeout 3 (sampleState 255) 255 rfl rfl
     rfl).1⟩

/-- C8: a successful cycle stores `/Yield/Power` as the exact product of
the fetched PV voltage and current, and `/Yield/System`, `/Yield/User`
as the raw counters divided by 1000 exactly; the registered formatters
only produce the textual rendering of the stored value. -/
theorem c8_exact_arithmetic (sn : Snapshot) (now : ℚ) (s : ServiceState)
    (i : ℤ) (hidx : s.dbus.updateIndex = .int i) (h0 : 0 ≤ sn.cst)
    (h7 : sn.cst < 7) :
    ∃ s2, update (.response true (some sn.toJson)) now s = .ok (s2, true) ∧
      s2.dbus.yieldPower = .float (sn.pvo * sn.pcu) ∧
      s2.dbus.yieldSystem = .float ((sn.bto : ℚ) / 1000) ∧
      s2.dbus.yieldUser = .float ((sn.bge : ℚ) / 1000) ∧
      renderText fmtW s2.dbus.yieldPower = some (fmtW (sn.pvo * sn.pcu)) ∧
      renderText fmtKwh s2.dbus.yieldSystem =
        some (fmtKwh ((sn.bto : ℚ) / 1000)) ∧
      renderText fmtKwh s2.dbus.yieldUser =
        some (fmtKwh ((sn.bge : ℚ) / 1000)) := by
  have hrt := runTry_snapshot sn now s i hidx h0 h7
  refine ⟨⟨successDbus sn i, now⟩, ?_, rfl, rfl, rfl, rfl, rfl, rfl⟩
  simp [update, requestData, toJson_truthy, hrt]

/-- A snapshot whose raw energy counters are both 12345 (stored exactly
as 12345/1000). -/
def scenarioC8 : Snapshot := ⟨40, 5, 0, 12345, 12345, 26, 5, true, 1⟩

/-- Witness for C8 at raw counters 12345. -/
theorem c8_exact_arithmetic_witness :
    (sampleState 0).dbus.updateIndex = .int 0 ∧ 0 ≤ scenarioC8.cst ∧
      scenarioC8.cst < 7 ∧
      ∃ s2, update (.response true (some scenarioC8.toJson)) 6 (sampleState 0) =
          .ok (s2, true) ∧
        s2.dbus.yieldPower = .float (scenarioC8.pvo * scenarioC8.pcu) ∧
        s2.dbus.yieldSystem = .float ((scenarioC8.bto : ℚ) / 1000) ∧
        s2.dbus.yieldUser = .float ((scenarioC8.bge : ℚ) / 1000) ∧
        renderText fmtW s2.dbus.yieldPower =
          some (fmtW (scenarioC8.pvo * scenarioC8.pcu)) ∧
        renderText fmtKwh s2.dbus.yieldSystem =
          some (fmtKwh ((scenarioC8.bto : ℚ) / 1000)) ∧
        renderText fmtKwh s2.dbus.yieldUser =
          some (fmtKwh ((scenarioC8.bge : ℚ) / 1000)) :=
  ⟨rfl, by decide, by decide,
   c8_exact_arithmetic scenarioC8 6 (sampleState 0) 0 rfl (by decide)
     (by decide)⟩

/-- C10: a truthy response whose body decodes to falsy JSON makes
`_requestData` raise `ValueError`, so the cycle takes the
recoverable-fault path: nine zero/off defaults and an index increment,
not a successful cycle. -/
theorem c10_falsy_json (j : Json) (now : ℚ) (s : ServiceState) (i : ℤ)
    (hfalsy : j.truthy = false) (hidx : s.dbus.updateIndex = .int i) :
    requestData (.response true (some j)) = .error .valueError ∧
    update (.response true (some j)) now s =
      .ok ({ dbus := faultDbus (.int ((i + 1) % 256)),
             lastUpdate := s.lastUpdate }, true) := by
  have h1 := requestData_falsy j hfalsy
  exact ⟨h1, update_recoverable _ .valueError now s i h1 rfl hidx⟩

/-- Witness for C10: the empty JSON object `{}` is falsy. -/
theorem c10_falsy_json_witness :
    Json.truthy (.obj []) = false ∧
      (sampleState 9).dbus.updateIndex = .int 9 ∧
      requestData (.response true (some (.obj []))) = .error .valueError ∧
      update (.response true (some (.obj []))) 1 (sampleState 9) =
        .ok ({ dbus := faultDbus (.int ((9 + 1) % 256)),
               lastUpdate := (sampleState 9).lastUpdate }, true) :=
  ⟨rfl, rfl, (c10_falsy_json (.obj []) 1 (sampleState 9) 9 rfl rfl).1,
   (c10_falsy_json (.obj []) 1 (sampleState 9) 9 rfl rfl).2⟩

/-- A snapshot carrying the out-of-range negative charge-state code -1. -/
def scenarioC5neg : Snapshot := ⟨2, 3, -1, 1000, 2000, 12, 7, false, 9⟩

/-- Counterexample to C5: the device code -1 does not fail; Python
negative indexing silently publishes `/State = 2` (the last element of
the array) and the cycle completes as a success. -/
theorem c5_counterexample :
    publishedState
        (update (.response true (some scenarioC5neg.toJson)) 8 (sampleState 0)) =
      some (.int 2) ∧
    cycleClass (.response true (some scenarioC5neg.toJson)) 8 (sampleState 0) =
      none ∧
    returnValue
        (update (.response true (some scenarioC5neg.toJson)) 8 (sampleState 0)) =
      some true :=
  ⟨rfl, rfl, rfl⟩

/-- C5 as amended: a code `≥ 7` or `< -7` raises `IndexError` (an
unhandled fault that leaves `/State`, `/UpdateIndex` and `_lastUpdate`
unchanged and still returns `True`), while a code in `-7..-1` silently
publishes `state_map[7 + code]` by Python negative indexing. -/
theorem c5_amended (c d : ℤ) (sn : Snapshot) (now : ℚ) (s : ServiceState) :
    (7 ≤ c ∨ c < -7 → pyListGet state_map c = .error .indexError) ∧
    (-7 ≤ d → d < 0 →
      pyListGet state_map d = .ok (state_map.getD (7 + d).toNat 0)) ∧
    (sn.cst = c → 7 ≤ c →
      publishedState (update (.response true (some sn.toJson)) now s) =
          some s.dbus.state ∧
        publishedIndex (update (.response true (some sn.toJson)) now s) =
          some s.dbus.updateIndex ∧
        lastUpdateOf (update (.response true (some sn.toJson)) now s) =
          some s.lastUpdate ∧
        returnValue (update (.response true (some sn.toJson)) now s) =
          some true) := by
  refine ⟨?_, ?_, ?_⟩
  · rintro (h | h)
    · exact pyListGet_big c h
    · exact pyListGet_small c h
  · intro h1 h2
    exact pyListGet_neg d h1 h2
  · intro hcc h7c
    subst hcc
    have hbig := pyListGet_big sn.cst h7c
    simp [publishedState, publishedIndex, lastUpdateOf, returnValue, update,
      requestData, Json.truthy, runTry, writes, applyWrites, Snapshot.toJson,
      getField, Json.getItem, lookupField, pyMulE, pyMul, stateMapEval,
      toIndex, pyIndexOf, Except.map, hbig, PyError.recoverable]

/-- A snapshot carrying the out-of-range charge-state code 9. -/
def scenarioC5 : Snapshot := ⟨1, 2, 9, 10, 20, 3, 4, true, 5⟩

/-- Witness for the amended C5 at codes 9 and -1. -/
theorem c5_amended_witness :
    ((7 : ℤ) ≤ 9 ∨ (9 : ℤ) < -7) ∧ (-7 : ℤ) ≤ -1 ∧ (-1 : ℤ) < 0 ∧
      scenarioC5.cst = 9 ∧
      pyListGet state_map 9 = .error .indexError ∧
      pyListGet state_map (-1) =
        .ok (state_map.getD ((7 + (-1) : ℤ)).toNat 0) ∧
      (publishedState
          (update (.response true (some scenarioC5.toJson)) 0 (sampleState 0)) =
          some (sampleState 0).dbus.state ∧
        publishedIndex
            (update (.response true (some scenarioC5.toJson)) 0
              (sampleState 0)) =
          some (sampleState 0).dbus.updateIndex ∧
        lastUpdateOf
            (update (.response true (some scenarioC5.toJson)) 0
              (sampleState 0)) =
          some (sampleState 0).lastUpdate ∧
        returnValue
            (update (.response true (some scenarioC5.toJson)) 0
              (sampleState 0)) =
          some true) :=
  ⟨Or.inl (by decide), by decide, by decide, rfl,
   (c5_amended 9 (-1) scenarioC5 0 (sampleState 0)).1 (Or.inl (by decide)),
   (c5_amended 9 (-1) scenarioC5 0 (sampleState 0)).2.1 (by decide) (by decide),
   (c5_amended 9 (-1) scenarioC5 0 (sampleState 0)).2.2 rfl (by decide)⟩

/-- Counterexample to C6: the truthy JSON object `{"x": 1}` has an
unexpected shape (no `"p"` field), yet the cycle is NOT handled as a
recoverable fault: the raised `KeyError` reaches the generic handler,
the nine properties keep their prior values (`/Pv/V` stays 99, not 0)
and `/UpdateIndex` stays at 3. -/
theorem c6_counterexample :
    Json.truthy (.obj [("x", .int 1)]) = true ∧
      cycleClass (.response true (some (.obj [("x", .int 1)]))) 0
          (sampleState 3) = some .keyError ∧
      PyError.keyError.recoverable = false ∧
      update (.response true (some (.obj [("x", .int 1)]))) 0 (sampleState 3) =
        .ok (sampleState 3, true) ∧
      (sampleState 3).dbus.pvV = .int 99 ∧
      (sampleState 3).dbus.updateIndex = .int 3 :=
  ⟨rfl, rfl, rfl, rfl, rfl, rfl⟩

/-- C6 as amended: an unexpected JSON shape is never classified as a
recoverable `MalformedResponse`.  Three facts replace the claim:
(a) a truthy body whose required top-level `"p"` field is missing raises
`KeyError` before any write, and the generic handler then leaves the
entire service state unchanged — no defaults, no index increment — with
`_update` returning `True`; (b) any `KeyError`/`TypeError`/`IndexError`
raised inside the try block (none of them in the recoverable `except`
tuple) takes the unhandled path: `/UpdateIndex` and `_lastUpdate` are
unchanged and `True` is returned, writes made before the failing access
being kept; (c) a wrong-typed field need not raise at all: a string
`p.vo` together with an integral `p.cu` completes as a fully successful
cycle via Python string repetition, with `/Pv/V` holding the string,
`/Yield/Power` its repetition, and the index incremented. -/
theorem c6_amended (fs : List (String × Json)) (nowA : ℚ) (sA : ServiceState)
    (sn : Snapshot) (vs : String) (ncu : ℤ) (nowB : ℚ) (sB : ServiceState)
    (iB : ℤ) (fetch : HttpOutcome) (nowC : ℚ) (sC : ServiceState)
    (e : PyError) :
    (fs ≠ [] → lookupField fs "p" = none →
      update (.response true (some (.obj fs))) nowA sA = .ok (sA, true)) ∧
    (sB.dbus.updateIndex = .int iB → 0 ≤ sn.cst → sn.cst < 7 →
      cycleClass (.response true (some (sn.toJsonStrVo vs ncu))) nowB sB =
          none ∧
        update (.response true (some (sn.toJsonStrVo vs ncu))) nowB sB =
          .ok ({ dbus := strVoDbus sn vs ncu iB, lastUpdate := nowB },
            true)) ∧
    (cycleClass fetch nowC sC = some e →
      e = .keyError ∨ e = .typeError ∨ e = .indexError →
      ∃ s2, update fetch nowC sC = .ok (s2, true) ∧
        s2.dbus.updateIndex = sC.dbus.updateIndex ∧
        s2.lastUpdate = sC.lastUpdate) := by
  refine ⟨?_, ?_, ?_⟩
  · intro hne hp
    have ht : (Json.obj fs).truthy = true := by
      cases fs with
      | nil => exact absurd rfl hne
      | cons a l => rfl
    simp [update, requestData, ht, runTry, writes, applyWrites, getField,
      Json.getItem, hp, PyError.recoverable]
  · intro hidx h0 h7
    have hrt := runTry_strVo sn vs ncu nowB sB iB hidx h0 h7
    constructor
    · simp [cycleClass, requestData, toJsonStrVo_truthy, hrt]
    · simp [update, requestData, toJsonStrVo_truthy, hrt]
  · intro hclass hmem
    rcases hmem with h | h | h <;> subst h <;>
      exact update_unhandled fetch nowC sC _ hclass rfl

/-- The snapshot fields around the wrong-typed `p.vo` of the C6 witness
(Scenario A values; `pvo`/`pcu` are unused by `toJsonStrVo`). -/
def scenarioC6 : Snapshot := ⟨0, 0, 3, 123000, 4500, 26, 24 / 5, true, 6 / 5⟩

/-- Witness for the amended C6: the missing-`"p"` body `{"x": 1}` leaves
the state untouched; the wrong-typed body with `p.vo = "40"` and
`p.cu = 5` completes as a success; and the `KeyError` cycle keeps index
and timestamp. -/
theorem c6_amended_witness :
    ([(("x" : String), Json.int 1)] ≠ []) ∧
      lookupField [("x", Json.int 1)] "p" = none ∧
      (sampleState 3).dbus.updateIndex = .int 3 ∧ 0 ≤ scenarioC6.cst ∧
      scenarioC6.cst < 7 ∧
      cycleClass (.response true (some (.obj [("x", .int 1)]))) 0
          (sampleState 4) = some .keyError ∧
      (PyError.keyError = .keyError ∨ PyError.keyError = .typeError ∨
        PyError.keyError = .indexError) ∧
      update (.response true (some (.obj [("x", .int 1)]))) 5 (sampleState 8) =
        .ok (sampleState 8, true) ∧
      (cycleClass (.response true (some (scenarioC6.toJsonStrVo "40" 5))) 2
            (sampleState 3) = none ∧
        update (.response true (some (scenarioC6.toJsonStrVo "40" 5))) 2
            (sampleState 3) =
          .ok ({ dbus := strVoDbus scenarioC6 "40" 5 3, lastUpdate := 2 },
            true)) ∧
      ∃ s2, update (.response true (some (.obj [("x", .int 1)]))) 0
            (sampleState 4) = .ok (s2, true) ∧
        s2.dbus.updateIndex = (sampleState 4).dbus.updateIndex ∧
        s2.lastUpdate = (sampleState 4).lastUpdate :=
  ⟨by simp, rfl, rfl, by decide, by decide, rfl, Or.inl rfl,
   (c6_amended [("x", .int 1)] 5 (sampleState 8) scenarioC6 "40" 5 2
       (sampleState 3) 3 (.response true (some (.obj [("x", .int 1)]))) 0
       (sampleState 4) .keyError).1 (by simp) rfl,
   (c6_amended [("x", .int 1)] 5 (sampleState 8) scenarioC6 "40" 5 2
       (sampleState 3) 3 (.response true (some (.obj [("x", .int 1)]))) 0
       (sampleState 4) .keyError).2.1 rfl (by decide) (by decide),
   (c6_amended [("x", .int 1)] 5 (sampleState 8) scenarioC6 "40" 5 2
       (sampleState 3) 3 (.response true (some (.obj [("x", .int 1)]))) 0
       (sampleState 4) .keyError).2.2 rfl (Or.inl rfl)⟩

/-- A truthy JSON body with a well-formed `"p"` object but no `"c"`
field: two writes land before the `KeyError`. -/
def c7json : Json := .obj [("p", .obj [("vo", .float 40), ("cu", .float 5)])]

/-- Counterexample to C7: on this unhandled fault the cycle is not
atomic: `/Pv/V` has already been overwritten with the fetched 40.0
(prior value 99) when the `KeyError` aborts the try block, and the
partial write is kept. -/
theorem c7_counterexample :
    cycleClass (.response true (some c7json)) 9 (sampleState 4) =
        some .keyError ∧
      PyError.keyError.recoverable = false ∧
      publishedPvV (update (.response true (some c7json)) 9 (sampleState 4)) =
        some (.float 40) ∧
      publishedIndex (update (.response true (some c7json)) 9 (sampleState 4)) =
        some (sampleState 4).dbus.updateIndex ∧
      returnValue (update (.response true (some c7json)) 9 (sampleState 4)) =
        some true ∧
      (sampleState 4).dbus.pvV = .int 99 :=
  ⟨rfl, rfl, rfl, rfl, rfl, rfl⟩

/-- C7 as amended: on an unhandled fault `_update` does not increment
`/UpdateIndex`, does not update `_lastUpdate`, and still returns `True`
so the loop continues; but writes performed before the exception are
kept (no atomicity). -/
theorem c7_amended (fetch : HttpOutcome) (now : ℚ) (s : ServiceState)
    (e : PyError) (hclass : cycleClass fetch now s = some e)
    (hrec : e.recoverable = false) :
    ∃ s2, update fetch now s = .ok (s2, true) ∧
      s2.dbus.updateIndex = s.dbus.updateIndex ∧
      s2.lastUpdate = s.lastUpdate :=
  update_unhandled fetch now s e hclass hrec

/-- Witness for the amended C7 on the partially-writable body. -/
theorem c7_amended_witness :
    cycleClass (.response true (some c7json)) 1 (sampleState 6) =
        some .keyError ∧
      PyError.keyError.recoverable = false ∧
      ∃ s2, update (.response true (some c7json)) 1 (sampleState 6) =
          .ok (s2, true) ∧
        s2.dbus.updateIndex = (sampleState 6).dbus.updateIndex ∧
        s2.lastUpdate = (sampleState 6).lastUpdate :=
  ⟨rfl, rfl,
   c7_amended (.response true (some c7json)) 1 (sampleState 6) .keyError rfl
     rfl⟩

/-- Counterexample to C9: a configured sign-of-life interval of 0 does
not disable the heartbeat: `__init__` unconditionally registers the
`_signOfLife` timer, here with period `0 * 60 * 1000 = 0` ms (under
GLib, `timeout_add(0, ...)` fires as soon as possible and keeps firing,
since the callback returns `True`). -/
theorem c9_counterexample :
    getSignOfLifeInterval (some 0) = 0 ∧
      signOfLifePeriodMs (some 0) = 0 ∧
      initTimerPeriods (some 0) = [2000, 0] ∧
      (initTimerPeriods (some 0)).length = 2 :=
  ⟨rfl, rfl, rfl, rfl⟩

/-- C9 as amended: for every configured interval value `n` — including
0 — the heartbeat timer is registered with period `n * 60 * 1000` ms;
an empty config value is read as 0, giving a period-0 registration
rather than a disabled timer. -/
theorem c9_amended (n : ℤ) :
    initTimerPeriods (some n) = [2000, n * 60 * 1000] ∧
      getSignOfLifeInterval none = 0 ∧
      initTimerPeriods none = [2000, 0] :=
  ⟨rfl, rfl, rfl⟩

end RngBridge
